import Mathlib

/-!
Shallow embedding of the simulation core of `src/Greyreach.py` ("Greyreach",
a top-down tile-maze action game) and proofs about it.

Modelling conventions, used consistently below:
* Python ints become `ℤ` (or `ℕ` for counters/timers that never go negative in
  the source); Python floats become `ℚ` with exact arithmetic (the usual
  idealisation of IEEE doubles at the small magnitudes this game uses).
* `pygame.Rect` coordinates are machine integers; assigning a float to a rect
  field truncates toward zero.  `pyint` models that truncation.
* Python's floor division `//` on integers is `Int.fdiv`; `%` with a positive
  modulus is `Int.emod`.
* `math.hypot dx dy` is irrational in general, so functions that consume it
  take the distance as an explicit argument `dist`; theorems constrain it by
  the defining equations `0 ≤ dist` and `dist * dist = dx² + dy²`.  Strict
  comparisons `hypot dx dy < c` (with `c ≥ 0`) are rendered exactly as
  `dx² + dy² < c²` where the code only needs the comparison.
* `random.random()`, `random.choice` etc. are modelled as explicit oracle
  parameters (e.g. the crate loot roll `r : ℚ` with `0 ≤ r < 1`, the freshly
  generated start tile of the next level).
-/

/-! ### Constants (Greyreach.py, section 1) -/

def SCREEN_WIDTH : ℤ := 1024

def SCREEN_HEIGHT : ℤ := 768

def FPS : ℚ := 60

def TILE_SIZE : ℤ := 50

/-- `GRID_WIDTH = SCREEN_WIDTH // TILE_SIZE` (= 20). -/
def GRID_WIDTH : ℕ := 1024 / 50

/-- `GRID_HEIGHT = SCREEN_HEIGHT // TILE_SIZE` (= 15). -/
def GRID_HEIGHT : ℕ := 768 / 50

def TOTAL_LEVELS : ℕ := 10

def CORES_NEEDED : ℕ := 3

def MOVE_SPEED : ℚ := 5

def LIGHT_RADIUS : ℤ := 200

def SENTINEL_SPEED : ℚ := 2

def BULLET_SPEED : ℚ := 10

def FIRE_COOLDOWN : ℕ := 15

def CRATE_HEALTH : ℤ := 3

/-- Ammo consumed by the swirl shield per second (`5/60` per frame). -/
def SWIRL_AMMO_COST : ℚ := 5

/-! ### pygame primitives -/

/-- Truncation toward zero, as Python's `int()` / pygame's rect assignment. -/
def pyint (q : ℚ) : ℤ := if 0 ≤ q then ⌊q⌋ else -⌊-q⌋

/-- A `pygame.Rect`: integer top-left corner plus width and height. -/
structure Rect where
  x : ℤ
  y : ℤ
  w : ℤ
  h : ℤ
deriving DecidableEq, Repr

def Rect.centerx (r : Rect) : ℤ := r.x + r.w / 2

def Rect.centery (r : Rect) : ℤ := r.y + r.h / 2

/-- `pygame.Rect.colliderect`: strict overlap on both axes. -/
def collideRect (a b : Rect) : Bool :=
  decide (a.x < b.x + b.w) && decide (a.y < b.y + b.h) &&
  decide (b.x < a.x + a.w) && decide (b.y < a.y + a.h)

/-- `screen.get_rect()`. -/
def screenRect : Rect := ⟨0, 0, SCREEN_WIDTH, SCREEN_HEIGHT⟩

/-! ### The tile grid -/

/-- `game_map`: a row-major list of rows, entries `0` (floor) / `1` (wall). -/
abbrev GameMap := List (List ℕ)

/-- `game_map[ty][tx]` (out-of-range indexing never happens in-source; the
default `0` is irrelevant under the bounds guard below). -/
def cellAt (m : GameMap) (tx ty : ℕ) : ℕ := (m.getD ty []).getD tx 0

/-- The shared wall test of `Nanobot.check_collision` / `Sentinel.check_collision`
for one sample point `(px, py)` in world coordinates:
`tile = point // TILE_SIZE`, colliding iff the tile is inside the grid bounds
and holds a `1`.  Points outside the grid bounds never collide. -/
def wallAtPoint (m : GameMap) (px py : ℤ) : Bool :=
  let tile_x := Int.fdiv px TILE_SIZE
  let tile_y := Int.fdiv py TILE_SIZE
  decide (0 ≤ tile_y) && decide (tile_y < (GRID_HEIGHT : ℤ)) &&
  decide (0 ≤ tile_x) && decide (tile_x < (GRID_WIDTH : ℤ)) &&
  (cellAt m tile_x.toNat tile_y.toNat == 1)

/-! ### The player (`class Nanobot`) -/

structure Nanobot where
  /-- rect top-left x; the nanobot's rect is 30×30 (`TILE_SIZE * 0.6`). -/
  x : ℤ
  /-- rect top-left y. -/
  y : ℤ
  velocity_x : ℚ
  velocity_y : ℚ
  cooldown_timer : ℕ
  max_health : ℤ
  current_health : ℤ
  ammo_count : ℚ
  shield_active : Bool
  multi_shot_active : Bool
  shield_timer : ℕ
  multi_shot_timer : ℕ
  is_swirling : Bool
  swirl_angle : ℤ
deriving DecidableEq, Repr

def Nanobot.rect (nb : Nanobot) : Rect := ⟨nb.x, nb.y, 30, 30⟩

/-- `Nanobot.__init__`: spawn centred on the start tile with full stats. -/
def Nanobot.init (start_pos_tile : ℕ × ℕ) : Nanobot :=
  { x := (start_pos_tile.1 : ℤ) * TILE_SIZE + TILE_SIZE / 2 - 15
    y := (start_pos_tile.2 : ℤ) * TILE_SIZE + TILE_SIZE / 2 - 15
    velocity_x := 0, velocity_y := 0
    cooldown_timer := 0
    max_health := 100, current_health := 100
    ammo_count := 100
    shield_active := false, multi_shot_active := false
    shield_timer := 0, multi_shot_timer := 0
    is_swirling := false, swirl_angle := 0 }

inductive PowerupType
  | shield
  | multishot
  | ammo
  | health
deriving DecidableEq, Repr

/-- `Nanobot.apply_powerup`. -/
def Nanobot.apply_powerup (nb : Nanobot) (p : PowerupType) : Nanobot :=
  match p with
  | .shield => { nb with shield_active := true, shield_timer := 300 }
  | .multishot => { nb with multi_shot_active := true, multi_shot_timer := 600 }
  | .ammo => { nb with ammo_count := min 999 (nb.ammo_count + 50) }
  | .health => { nb with current_health := min nb.max_health (nb.current_health + 25) }

/-- `Nanobot.check_collision` at rect top-left `(x, y)`: samples the four
edge midpoints (`midtop`, `midbottom`, `midleft`, `midright`) of the 30×30
rect against the grid. -/
def nanobotCollision (m : GameMap) (x y : ℤ) : Bool :=
  wallAtPoint m (x + 15) y || wallAtPoint m (x + 15) (y + 30) ||
  wallAtPoint m x (y + 15) || wallAtPoint m (x + 30) (y + 15)

/-- The movement half of `Nanobot.update`: apply the velocity per axis, and
revert an axis (subtracting the just-applied delta from the pre-truncation
float) whenever the wall test fires after that axis moved. -/
def Nanobot.moveStep (m : GameMap) (nb : Nanobot) : Nanobot :=
  let newX : ℚ := (nb.x : ℚ) + nb.velocity_x
  let newY : ℚ := (nb.y : ℚ) + nb.velocity_y
  let x2 : ℤ :=
    if nanobotCollision m (pyint newX) nb.y then pyint (newX - nb.velocity_x)
    else pyint newX
  let y2 : ℤ :=
    if nanobotCollision m x2 (pyint newY) then pyint (newY - nb.velocity_y)
    else pyint newY
  { nb with x := x2, y := y2 }

/-- The timer half of `Nanobot.update`: cooldown, shield and multishot
countdowns; a countdown sitting at 0 clears its flag. -/
def Nanobot.timersStep (nb : Nanobot) : Nanobot :=
  let nb := if 0 < nb.cooldown_timer then { nb with cooldown_timer := nb.cooldown_timer - 1 } else nb
  let nb := if 0 < nb.shield_timer then { nb with shield_timer := nb.shield_timer - 1 } else nb
  let nb := if nb.shield_timer = 0 then { nb with shield_active := false } else nb
  let nb := if 0 < nb.multi_shot_timer then { nb with multi_shot_timer := nb.multi_shot_timer - 1 } else nb
  let nb := if nb.multi_shot_timer = 0 then { nb with multi_shot_active := false } else nb
  nb

/-- The swirl half of `Nanobot.update`: while swirling, drain
`SWIRL_AMMO_COST / FPS` ammo clamped at 0, auto-deactivate once ammo is
exhausted, and advance the swirl animation angle. -/
def Nanobot.swirlStep (nb : Nanobot) : Nanobot :=
  if nb.is_swirling then
    let nb := if 0 < nb.ammo_count then
        { nb with ammo_count := max 0 (nb.ammo_count - SWIRL_AMMO_COST / FPS) }
      else nb
    let nb := if nb.ammo_count ≤ 0 then { nb with is_swirling := false } else nb
    { nb with swirl_angle := (nb.swirl_angle + 10).emod 360 }
  else nb

/-- `Nanobot.update` (the state-relevant part: movement, timers, swirl). -/
def Nanobot.update (m : GameMap) (nb : Nanobot) : Nanobot :=
  (nb.moveStep m).timersStep.swirlStep

/-- Main loop, `activate_swirl = keys[K_SPACE] and nanobot and ammo_count > 0`
followed by `nanobot.is_swirling = activate_swirl`. -/
def Nanobot.setSwirl (held : Bool) (nb : Nanobot) : Nanobot :=
  { nb with is_swirling := held && decide (0 < nb.ammo_count) }

/-- `Nanobot.fire_weapon`.  `hasTarget` stands for `target_sentinel` being a
live sentinel; the returned `ℕ` is the number of bullets spawned. -/
def Nanobot.fire_weapon (nb : Nanobot) (hasTarget can_fire : Bool) : Nanobot × ℕ :=
  if nb.cooldown_timer = 0 ∧ hasTarget = true ∧ 0 < nb.ammo_count ∧
      can_fire = true ∧ nb.is_swirling = false then
    let nb1 := { nb with ammo_count := nb.ammo_count - 1 }
    let firedPair : Nanobot × ℕ :=
      if nb1.multi_shot_active = true ∧ 0 < nb1.ammo_count then
        ({ nb1 with ammo_count := nb1.ammo_count - 1 }, 3)
      else (nb1, 1)
    ({ firedPair.1 with cooldown_timer := FIRE_COOLDOWN }, firedPair.2)
  else (nb, 0)

/-! ### Enemies (`class Sentinel`) -/

/-- `Sentinel.check_collision` at rect top-left `(x, y)`: samples only the
centre point of the 25×25 sentinel rect (`TILE_SIZE * 0.5`, centre offset
`25 // 2 = 12`). -/
def sentinelCollision (m : GameMap) (x y : ℤ) : Bool :=
  wallAtPoint m (x + 12) (y + 12)

/-- The movement core of `Sentinel.update` while pursuing: the same per-axis
update-then-revert step as the player, with the centre-point wall test.
`target_vx`/`target_vy` abstract `SENTINEL_SPEED * cos/sin(angle to player)`
(irrational trigonometry taken as parameters). -/
def sentinelMove (m : GameMap) (x y : ℤ) (target_vx target_vy : ℚ) : ℤ × ℤ :=
  let newX : ℚ := (x : ℚ) + target_vx
  let newY : ℚ := (y : ℚ) + target_vy
  let x2 : ℤ :=
    if sentinelCollision m (pyint newX) y then pyint (newX - target_vx)
    else pyint newX
  let y2 : ℤ :=
    if sentinelCollision m x2 (pyint newY) then pyint (newY - target_vy)
    else pyint newY
  (x2, y2)

/-! ### Crates and loot (`class Crate`) -/

structure Crate where
  rect : Rect
  health : ℤ
deriving DecidableEq, Repr

/-- `Crate.__init__` at world-space centre `(cx, cy)`: 35×35 rect
(`TILE_SIZE * 0.7`), health `CRATE_HEALTH`. -/
def Crate.make (cx cy : ℤ) : Crate :=
  { rect := ⟨cx - 17, cy - 17, 35, 35⟩, health := CRATE_HEALTH }

inductive LootKind
  | powerup
  | ammo
  | health
deriving DecidableEq, Repr

/-- The loot table of `Crate.hit`: Python's float literals `0.2`, `0.45`,
`0.65` taken as the exact rationals they denote in the source text. -/
def crateLoot (loot_roll : ℚ) : Option LootKind :=
  if loot_roll < 1/5 then some LootKind.powerup
  else if loot_roll < 9/20 then some LootKind.ammo
  else if loot_roll < 13/20 then some LootKind.health
  else none

/-- `Crate.hit`, with the `random.random()` loot roll as oracle `r`.
Returns the decremented crate, whether it was destroyed (`kill`ed), and the
loot dropped (rolled exactly once, only at destruction). -/
def Crate.hit (c : Crate) (r : ℚ) : Crate × Bool × Option LootKind :=
  let c1 := { c with health := c.health - 1 }
  if c1.health ≤ 0 then (c1, true, crateLoot r)
  else (c1, false, none)

/-- The "PowerUp collection" pass of the main loop,
`pygame.sprite.spritecollide(nanobot, all_sprites, True)`: every sprite of
the group whose rect overlaps the nanobot's rect is killed (removed from all
groups).  Returns the rects of the sprites so removed. -/
def collectKilled (nbRect : Rect) (group : List Rect) : List Rect :=
  group.filter (fun r => collideRect nbRect r)

/-! ### Bullets (`class Bullet`) -/

structure Bullet where
  /-- rect top-left x; the bullet's rect is 8×8. -/
  x : ℤ
  /-- rect top-left y. -/
  y : ℤ
  vx : ℚ
  vy : ℚ
deriving DecidableEq, Repr

def Bullet.rect (b : Bullet) : Rect := ⟨b.x, b.y, 8, 8⟩

def Bullet.centerx (b : Bullet) : ℤ := b.x + 4

def Bullet.centery (b : Bullet) : ℤ := b.y + 4

/-- `Bullet.__init__`: an 8×8 rect centred on `start_pos`, velocity `(0, 0)`,
speed `BULLET_SPEED`. -/
def Bullet.make (start_pos : ℤ × ℤ) : Bullet :=
  { x := start_pos.1 - 4, y := start_pos.2 - 4, vx := 0, vy := 0 }

/-- `Bullet.update`.  `targetAlive` is `self.target and self.target.alive()`;
`tc` is the live target's rect centre (unread when the target is gone);
`dist` is the `math.hypot dx dy` oracle.  Returns the updated bullet and
whether it `kill`ed itself this frame. -/
def Bullet.update (b : Bullet) (targetAlive : Bool) (tc : ℤ × ℤ) (dist : ℚ) :
    Bullet × Bool :=
  if targetAlive then
    let dx : ℤ := tc.1 - b.centerx
    let dy : ℤ := tc.2 - b.centery
    if 0 < dist then
      let vx : ℚ := (dx : ℚ) / dist * BULLET_SPEED
      let vy : ℚ := (dy : ℚ) / dist * BULLET_SPEED
      ({ b with vx := vx, vy := vy,
                x := pyint ((b.x : ℚ) + vx), y := pyint ((b.y : ℚ) + vy) }, false)
    else
      (b, true)
  else
    let b1 := { b with x := pyint ((b.x : ℚ) + b.vx), y := pyint ((b.y : ℚ) + b.vy) }
    (b1, !collideRect screenRect b1.rect)

/-- The bullet half of the main loop's collision checks: a bullet is killed
when it overlaps some sentinel or some crate (rect collision, as
`pygame.sprite.spritecollide`). -/
def bulletHitKill (bRect : Rect) (sentinelRects crateRects : List Rect) : Bool :=
  sentinelRects.any (fun r => collideRect bRect r) ||
  crateRects.any (fun r => collideRect bRect r)

/-! ### Game states and player–enemy contact resolution (main loop) -/

inductive GState
  | MENU
  | PLAYING
  | GAME_OVER
  | GAME_WIN
deriving DecidableEq, Repr

/-- Resolution of one player–sentinel contact (main loop, "Check for Sentinel
collision with Nanobot").  Returns the updated nanobot, whether the sentinel
was killed, and the resulting game state. -/
def resolveContact (nb : Nanobot) (st : GState) : Nanobot × Bool × GState :=
  if nb.is_swirling then
    (nb, true, st)
  else if nb.shield_active then
    ({ nb with shield_timer := 0, shield_active := false }, true, st)
  else
    let nb2 := { nb with current_health := nb.current_health - 10 }
    (nb2, true, if nb2.current_health ≤ 0 then GState.GAME_OVER else st)

/-! ### Level door and level transition -/

/-- `LevelDoor.__init__`: a `TILE_SIZE` square at the door tile. -/
def doorRectOf (tile_pos : ℕ × ℕ) : Rect :=
  ⟨(tile_pos.1 : ℤ) * TILE_SIZE, (tile_pos.2 : ℤ) * TILE_SIZE, TILE_SIZE, TILE_SIZE⟩

/-- The existing-nanobot branch of `setup_level` (taken on every door
transition, where `level_num ≥ 2`): reposition to the fresh level's start
tile, grant the capped health/ammo bonuses, clear buffs and swirl state.
The freshly generated start tile is the generation oracle. -/
def setupLevelNext (nb : Nanobot) (start_tile : ℕ × ℕ) : Nanobot :=
  { nb with
    x := (start_tile.1 : ℤ) * TILE_SIZE + TILE_SIZE / 2 - 15
    y := (start_tile.2 : ℤ) * TILE_SIZE + TILE_SIZE / 2 - 15
    current_health := min nb.max_health (nb.current_health + 20)
    ammo_count := min 999 (nb.ammo_count + 50)
    shield_active := false, multi_shot_active := false
    shield_timer := 0, multi_shot_timer := 0
    is_swirling := false }

/-- The door-transition check at the end of a `PLAYING` frame.  Returns
`(state, current_level, nanobot, current_cores)`. -/
def doorTransition (st : GState) (current_level current_cores : ℕ)
    (nbRect doorRect : Rect) (nb : Nanobot) (start_tile : ℕ × ℕ) :
    GState × ℕ × Nanobot × ℕ :=
  if CORES_NEEDED ≤ current_cores ∧ collideRect nbRect doorRect = true then
    if current_level < TOTAL_LEVELS then
      (st, current_level + 1, setupLevelNext nb start_tile, 0)
    else
      (GState.GAME_WIN, current_level, nb, current_cores)
  else
    (st, current_level, nb, current_cores)

/-! ### Fog-of-war visibility (`calculate_visible_tiles`) -/

/-- Squared Euclidean distance between two integer points; the source's
`math.hypot(cx - nx, cy - ny) < c` is rendered as `distSq < c²`. -/
def distSq (a b : ℤ × ℤ) : ℤ := (a.1 - b.1) ^ 2 + (a.2 - b.2) ^ 2

/-- The world-space centre of tile `(tx, ty)`. -/
def tileCenter (tx ty : ℕ) : ℤ × ℤ :=
  ((tx : ℤ) * TILE_SIZE + TILE_SIZE / 2, (ty : ℤ) * TILE_SIZE + TILE_SIZE / 2)

/-- The loop-body condition of `calculate_visible_tiles` for one tile:
inside the `1.5 * LIGHT_RADIUS` circle, a floor tile is added; a wall tile is
added only when also inside the `1.5 * TILE_SIZE` circle (`300² = 90000`,
`75² = 5625`). -/
def tileVisible (nanobot_center : ℤ × ℤ) (m : GameMap) (tx ty : ℕ) : Prop :=
  distSq (tileCenter tx ty) nanobot_center < 90000 ∧
  (cellAt m tx ty = 0 ∨ (cellAt m tx ty = 1 ∧ distSq (tileCenter tx ty) nanobot_center < 5625))

instance (n : ℤ × ℤ) (m : GameMap) (tx ty : ℕ) : Decidable (tileVisible n m tx ty) := by
  unfold tileVisible; infer_instance

/-- `calculate_visible_tiles`: the set of tiles the nested loop adds. -/
def calculate_visible_tiles (nanobot_center : ℤ × ℤ) (m : GameMap) : Finset (ℕ × ℕ) :=
  (Finset.range GRID_WIDTH ×ˢ Finset.range GRID_HEIGHT).filter
    (fun t => tileVisible nanobot_center m t.1 t.2)

/-! ### One `PLAYING` frame of the nanobot's own state -/

/-- The nanobot-state portion of one `PLAYING` frame in which the player only
holds (or does not hold) the swirl key and does not fire: the main loop sets
`is_swirling` from the input and the current ammo, then `nanobot.update`
runs movement, timers and the swirl drain. -/
def playingFrame (m : GameMap) (held : Bool) (nb : Nanobot) : Nanobot :=
  (nb.setSwirl held).update m

/-! ### Concrete demonstration values used by witnesses -/

/-- A tiny map: tile (1,0) is a wall, everything else floor (missing rows and
entries read as `0` through `cellAt`). -/
def demoMap : GameMap := [[0, 1, 0], [0, 0, 0]]

/-- A nanobot standing on the (floor) tile (1,1), fully stocked. -/
def demoBot : Nanobot := Nanobot.init (1, 1)

/-- The demo nanobot moving diagonally up-right toward the wall tile (1,0). -/
def demoMover : Nanobot := { demoBot with velocity_x := 5, velocity_y := -5 }

/-- A nanobot with both defensive layers up at once. -/
def demoShieldedSwirler : Nanobot :=
  { demoBot with shield_active := true, shield_timer := 120, is_swirling := true }

/-- A nanobot at 5 health with no active defenses. -/
def demoHurtBot : Nanobot := { demoBot with current_health := 5 }

/-- A fresh bullet whose 8×8 rect sits at the origin (centre `(4, 4)`). -/
def demoBullet : Bullet := Bullet.make (4, 4)

/-- A bullet flying through the inside of `demoMap`'s wall tile (1,0). -/
def demoWallBullet : Bullet := { x := 70, y := 10, vx := 3, vy := 2 }

/-- The primary bullet of a shot fired by the demo nanobot: spawned as an
8×8 rect centred on the player's own centre `(75, 75)` (`Bullet.__init__`
with `start_pos = self.rect.center`). -/
def demoFiredBullet : Bullet := Bullet.make (75, 75)

/-- The rect of a sentinel (25×25) centred at `(175, 75)`, 100 units to the
right of the demo nanobot's centre — the fired bullet's homing target. -/
def demoSentinelRect : Rect := ⟨163, 63, 25, 25⟩

/-! ## Helper lemmas -/

theorem pyint_intCast (n : ℤ) : pyint (n : ℚ) = n := by
  unfold pyint
  split
  · exact Int.floor_intCast n
  · rw [show -(n : ℚ) = ((-n : ℤ) : ℚ) by push_cast; ring, Int.floor_intCast]
    ring

theorem pyint_add_sub (a : ℤ) (v : ℚ) : pyint ((a : ℚ) + v - v) = a := by
  rw [add_sub_cancel_right, pyint_intCast]

/-! ## C7: the crate loot table -/

/-- C7: on a uniform roll `r ∈ [0,1)`, `Crate.hit`'s loot table yields a
power-up iff `r ∈ [0, 0.20)`, an ammo pickup iff `r ∈ [0.20, 0.45)`, a health
pickup iff `r ∈ [0.45, 0.65)`, and nothing iff `r ∈ [0.65, 1)`; in particular
the boundary rolls `0`, `0.2`, `0.45`, `0.65` yield power-up, ammo, health,
nothing respectively. -/
theorem C7_crate_loot_bands (r : ℚ) (h0 : 0 ≤ r) (h1 : r < 1) :
    (crateLoot r = some LootKind.powerup ↔ 0 ≤ r ∧ r < 1/5) ∧
    (crateLoot r = some LootKind.ammo ↔ 1/5 ≤ r ∧ r < 9/20) ∧
    (crateLoot r = some LootKind.health ↔ 9/20 ≤ r ∧ r < 13/20) ∧
    (crateLoot r = none ↔ 13/20 ≤ r ∧ r < 1) ∧
    crateLoot 0 = some LootKind.powerup ∧
    crateLoot (1/5) = some LootKind.ammo ∧
    crateLoot (9/20) = some LootKind.health ∧
    crateLoot (13/20) = none := by
  have e0 : crateLoot 0 = some LootKind.powerup := by norm_num [crateLoot]
  have e2 : crateLoot (1/5) = some LootKind.ammo := by norm_num [crateLoot]
  have e45 : crateLoot (9/20) = some LootKind.health := by norm_num [crateLoot]
  have e65 : crateLoot (13/20) = none := by norm_num [crateLoot]
  refine ⟨?_, ?_, ?_, ?_, e0, e2, e45, e65⟩ <;>
    · unfold crateLoot
      split_ifs with ha hb hc <;> simp <;>
        first
          | exact ⟨by linarith, by linarith⟩
          | (intros; linarith)

/-- Witness for C7 at the boundary roll `r = 0.2`. -/
theorem C7_witness : crateLoot (1/5 : ℚ) = some LootKind.ammo :=
  (C7_crate_loot_bands (1/5) (by norm_num) (by norm_num)).2.1.mpr
    ⟨le_refl _, by norm_num⟩

/-! ## C3: player–enemy contact resolution priority -/

/-- C3: on a player–sentinel contact during `PLAYING`, resolution follows the
priority order: with the swirl-shield active the sentinel dies and the
nanobot (its power-up shield included) is completely untouched; otherwise
with the power-up shield active the sentinel dies, no damage is taken and
the shield is consumed (flag cleared, timer zeroed); otherwise the player
takes exactly 10 damage, the sentinel dies regardless, and the state becomes
`GAME_OVER` exactly when the resulting health is ≤ 0. -/
theorem C3_contact_priority (nb : Nanobot) :
    (nb.is_swirling = true →
      resolveContact nb GState.PLAYING = (nb, true, GState.PLAYING)) ∧
    (nb.is_swirling = false → nb.shield_active = true →
      resolveContact nb GState.PLAYING =
        ({ nb with shield_timer := 0, shield_active := false }, true, GState.PLAYING)) ∧
    (nb.is_swirling = false → nb.shield_active = false →
      (resolveContact nb GState.PLAYING).1.current_health = nb.current_health - 10 ∧
      (resolveContact nb GState.PLAYING).1.shield_active = false ∧
      (resolveContact nb GState.PLAYING).2.1 = true ∧
      ((resolveContact nb GState.PLAYING).2.2 = GState.GAME_OVER ↔
        nb.current_health - 10 ≤ 0)) := by
  refine ⟨fun hs => ?_, fun hs hsh => ?_, fun hs hsh => ?_⟩
  · simp [resolveContact, hs]
  · simp [resolveContact, hs, hsh]
  · refine ⟨by simp [resolveContact, hs, hsh], by simp [resolveContact, hs, hsh],
      by simp [resolveContact, hs, hsh], ?_⟩
    by_cases hh : nb.current_health - 10 ≤ 0
    · simp [resolveContact, hs, hsh, hh]
    · simp [resolveContact, hs, hsh, hh]

/-- Witness for C3: with the swirl-shield AND the power-up shield both
active, the sentinel dies, no damage is taken, and the power-up shield
survives (the nanobot is returned unchanged, shield flag still set). -/
theorem C3_witness :
    resolveContact demoShieldedSwirler GState.PLAYING =
      (demoShieldedSwirler, true, GState.PLAYING) ∧
    demoShieldedSwirler.shield_active = true :=
  ⟨(C3_contact_priority demoShieldedSwirler).1 rfl, rfl⟩

/-! ## C4: swirl-shield ammo drain -/

/-- C4: while the swirl-shield is active with ammo > 0, one frame's update
drains exactly `SWIRL_AMMO_COST / FPS = 5/60` ammo clamped at 0 (so the
ammo count reaches exactly 0 and never goes negative), and on the very frame
the ammo count reaches 0 the swirl flag is cleared — the drain step never
consults the input, so this happens even while the key is still held.
Moreover the main loop's activation step sets the swirl flag to
(input held AND ammo > 0), so swirling is active exactly under that
condition. -/
theorem C4_swirl_drain (nb : Nanobot) (hs : nb.is_swirling = true)
    (ha : 0 < nb.ammo_count) :
    nb.swirlStep.ammo_count = max 0 (nb.ammo_count - 5/60) ∧
    0 ≤ nb.swirlStep.ammo_count ∧
    (5/60 ≤ nb.ammo_count → nb.swirlStep.ammo_count = nb.ammo_count - 5/60) ∧
    (nb.swirlStep.ammo_count = 0 → nb.swirlStep.is_swirling = false) ∧
    (∀ (held : Bool) (nb2 : Nanobot),
      (nb2.setSwirl held).is_swirling = (held && decide (0 < nb2.ammo_count))) := by
  have hcost : SWIRL_AMMO_COST / FPS = 5/60 := by norm_num [SWIRL_AMMO_COST, FPS]
  have hammo : nb.swirlStep.ammo_count = max 0 (nb.ammo_count - 5/60) := by
    simp only [Nanobot.swirlStep, hs, if_true, ha, hcost]
    split <;> rfl
  refine ⟨hammo, hammo ▸ le_max_left _ _, fun hge => ?_, fun hzero => ?_,
    fun held nb2 => rfl⟩
  · rw [hammo, max_eq_right (by linarith)]
  · rw [hammo] at hzero
    have hA : nb.ammo_count - 5/60 ≤ 0 := by
      by_contra hcon
      push_neg at hcon
      rw [max_eq_right (le_of_lt hcon)] at hzero
      linarith
    have hmax : max 0 (nb.ammo_count - 5/60) = 0 := max_eq_left hA
    simp [Nanobot.swirlStep, hs, ha, hcost, hmax]

/-- Witness for C4 on a concrete swirling nanobot with 100 ammo. -/
theorem C4_witness :
    demoShieldedSwirler.swirlStep.ammo_count = demoShieldedSwirler.ammo_count - 5/60 :=
  (C4_swirl_drain demoShieldedSwirler rfl (by norm_num [demoShieldedSwirler, demoBot,
    Nanobot.init])).2.2.1 (by norm_num [demoShieldedSwirler, demoBot, Nanobot.init])

/-! ## C9: fog-of-war visibility -/

/-- C9: for every player centre and grid, the visible-tile set contains a
floor tile iff its centre is within `1.5 × LIGHT_RADIUS = 300` units of the
player centre (squared: `90000`), and contains a wall tile iff its centre is
within `1.5 × TILE_SIZE = 75` units (squared: `5625`). -/
theorem C9_visibility (n : ℤ × ℤ) (m : GameMap) (tx ty : ℕ)
    (hx : tx < GRID_WIDTH) (hy : ty < GRID_HEIGHT) :
    (cellAt m tx ty = 0 →
      ((tx, ty) ∈ calculate_visible_tiles n m ↔ distSq (tileCenter tx ty) n < 90000)) ∧
    (cellAt m tx ty = 1 →
      ((tx, ty) ∈ calculate_visible_tiles n m ↔ distSq (tileCenter tx ty) n < 5625)) := by
  constructor
  · intro hc
    simp [calculate_visible_tiles, Finset.mem_filter, Finset.mem_product,
      Finset.mem_range, tileVisible, hx, hy, hc]
  · intro hc
    simp only [calculate_visible_tiles, Finset.mem_filter, Finset.mem_product,
      Finset.mem_range, tileVisible, hc]
    constructor
    · rintro ⟨-, -, h⟩
      rcases h with h01 | h1
      · exact absurd h01 one_ne_zero
      · exact h1.2
    · intro h
      exact ⟨⟨hx, hy⟩, by linarith, Or.inr ⟨trivial, h⟩⟩

/-- Witness for C9: with the player centred on tile (0,0) of `demoMap`, the
wall tile (1,0) (centre 50 units away, within 75) is visible. -/
theorem C9_witness : (1, 0) ∈ calculate_visible_tiles (25, 25) demoMap :=
  ((C9_visibility (25, 25) demoMap 1 0 (by norm_num [GRID_WIDTH])
    (by norm_num [GRID_HEIGHT])).2 rfl).mpr
    (by norm_num [distSq, tileCenter, TILE_SIZE])

/-! ## C5: door-triggered level transition -/

/-- C5: with the collected-core counter at `CORES_NEEDED = 3` and the player
rect overlapping the door rect, a level below `TOTAL_LEVELS = 10` keeps the
state `PLAYING`, increments the level index, rebuilds the player on the
freshly generated start tile with a cap-respecting `+20` health / `+50` ammo
bonus, clears every timed buff and the swirl state, and resets the core
counter to 0; on the final level the same condition instead yields
`GAME_WIN`. -/
theorem C5_level_transition (nb : Nanobot) (level cores : ℕ)
    (door_tile start_tile : ℕ × ℕ)
    (hcores : cores = CORES_NEEDED)
    (hoverlap : collideRect nb.rect (doorRectOf door_tile) = true) :
    (level < TOTAL_LEVELS →
      doorTransition GState.PLAYING level cores nb.rect (doorRectOf door_tile)
          nb start_tile =
        (GState.PLAYING, level + 1, setupLevelNext nb start_tile, 0) ∧
      (setupLevelNext nb start_tile).x = (start_tile.1 : ℤ) * TILE_SIZE + TILE_SIZE / 2 - 15 ∧
      (setupLevelNext nb start_tile).y = (start_tile.2 : ℤ) * TILE_SIZE + TILE_SIZE / 2 - 15 ∧
      (setupLevelNext nb start_tile).current_health =
        min nb.max_health (nb.current_health + 20) ∧
      (setupLevelNext nb start_tile).ammo_count = min 999 (nb.ammo_count + 50) ∧
      (setupLevelNext nb start_tile).shield_active = false ∧
      (setupLevelNext nb start_tile).multi_shot_active = false ∧
      (setupLevelNext nb start_tile).shield_timer = 0 ∧
      (setupLevelNext nb start_tile).multi_shot_timer = 0 ∧
      (setupLevelNext nb start_tile).is_swirling = false) ∧
    (level = TOTAL_LEVELS →
      doorTransition GState.PLAYING level cores nb.rect (doorRectOf door_tile)
          nb start_tile =
        (GState.GAME_WIN, level, nb, cores)) := by
  constructor
  · intro hlt
    refine ⟨?_, rfl, rfl, rfl, rfl, rfl, rfl, rfl, rfl, rfl⟩
    simp [doorTransition, hcores, hoverlap, hlt]
  · intro heq
    simp [doorTransition, hcores, hoverlap, heq]

/-- Witness for C5 with the player standing on the door of level 1. -/
theorem C5_witness :
    doorTransition GState.PLAYING 1 3 demoBot.rect (doorRectOf (1, 1))
        demoBot (2, 2) =
      (GState.PLAYING, 2, setupLevelNext demoBot (2, 2), 0) :=
  ((C5_level_transition demoBot 1 3 (1, 1) (2, 2) rfl (by decide)).1
    (by norm_num [TOTAL_LEVELS])).1

/-! ## C6: per-axis movement collision -/

/-- Helper: if the player's sample points are wall-free before `moveStep`,
they are wall-free after it (each axis either lands on a wall-free position
or is reverted exactly to its old value). -/
theorem nanobotMove_preserves_free (m : GameMap) (nb : Nanobot)
    (h : nanobotCollision m nb.x nb.y = false) :
    nanobotCollision m (nb.moveStep m).x (nb.moveStep m).y = false := by
  have e1 : pyint ((nb.x : ℚ) + nb.velocity_x - nb.velocity_x) = nb.x := pyint_add_sub _ _
  have e2 : pyint ((nb.y : ℚ) + nb.velocity_y - nb.velocity_y) = nb.y := pyint_add_sub _ _
  cases hx : nanobotCollision m (pyint ((nb.x : ℚ) + nb.velocity_x)) nb.y with
  | false =>
    cases hy : nanobotCollision m (pyint ((nb.x : ℚ) + nb.velocity_x))
        (pyint ((nb.y : ℚ) + nb.velocity_y)) with
    | false => simp [Nanobot.moveStep, pyint_intCast, hx, hy]
    | true => simp [Nanobot.moveStep, pyint_intCast, hx, hy]
  | true =>
    cases hy : nanobotCollision m nb.x (pyint ((nb.y : ℚ) + nb.velocity_y)) with
    | false => simp [Nanobot.moveStep, pyint_intCast, hx, hy]
    | true => simp [Nanobot.moveStep, pyint_intCast, hx, hy, h]

/-- Helper: the sentinel's centre-point sample is likewise wall-free after
its movement step whenever it was wall-free before. -/
theorem sentinelMove_preserves_free (m : GameMap) (x y : ℤ) (vx vy : ℚ)
    (h : sentinelCollision m x y = false) :
    sentinelCollision m (sentinelMove m x y vx vy).1 (sentinelMove m x y vx vy).2 = false := by
  have e1 : pyint ((x : ℚ) + vx - vx) = x := pyint_add_sub _ _
  have e2 : pyint ((y : ℚ) + vy - vy) = y := pyint_add_sub _ _
  cases hx : sentinelCollision m (pyint ((x : ℚ) + vx)) y with
  | false =>
    cases hy : sentinelCollision m (pyint ((x : ℚ) + vx)) (pyint ((y : ℚ) + vy)) with
    | false => simp [sentinelMove, pyint_intCast, hx, hy]
    | true => simp [sentinelMove, pyint_intCast, hx, hy]
  | true =>
    cases hy : sentinelCollision m x (pyint ((y : ℚ) + vy)) with
    | false => simp [sentinelMove, pyint_intCast, hx, hy]
    | true => simp [sentinelMove, pyint_intCast, hx, hy, h]

/-- C6: the per-axis update-then-revert step never leaves a sample point in a
wall: (1) a wall-free player stays wall-free after `moveStep`; (2) when the x
axis is blocked but y is clear, x is reverted and the y motion is kept;
(3) when y is blocked but x is clear, y is reverted and the x motion is kept
(sliding, both directions); (4) a wall-free sentinel (centre-point sample)
stays wall-free after its move; (5) any sample point whose tile falls
outside the grid bounds is treated as non-colliding. -/
theorem C6_movement_collision (m : GameMap) (nb : Nanobot) (sx sy : ℤ) (vx vy : ℚ) :
    (nanobotCollision m nb.x nb.y = false →
      nanobotCollision m (nb.moveStep m).x (nb.moveStep m).y = false) ∧
    (nanobotCollision m (pyint ((nb.x : ℚ) + nb.velocity_x)) nb.y = true →
      nanobotCollision m nb.x (pyint ((nb.y : ℚ) + nb.velocity_y)) = false →
      (nb.moveStep m).x = nb.x ∧
      (nb.moveStep m).y = pyint ((nb.y : ℚ) + nb.velocity_y)) ∧
    (nanobotCollision m (pyint ((nb.x : ℚ) + nb.velocity_x)) nb.y = false →
      nanobotCollision m (pyint ((nb.x : ℚ) + nb.velocity_x))
          (pyint ((nb.y : ℚ) + nb.velocity_y)) = true →
      (nb.moveStep m).x = pyint ((nb.x : ℚ) + nb.velocity_x) ∧
      (nb.moveStep m).y = nb.y) ∧
    (sentinelCollision m sx sy = false →
      sentinelCollision m (sentinelMove m sx sy vx vy).1
        (sentinelMove m sx sy vx vy).2 = false) ∧
    (∀ px py : ℤ,
      (Int.fdiv px TILE_SIZE < 0 ∨ (GRID_WIDTH : ℤ) ≤ Int.fdiv px TILE_SIZE ∨
       Int.fdiv py TILE_SIZE < 0 ∨ (GRID_HEIGHT : ℤ) ≤ Int.fdiv py TILE_SIZE) →
      wallAtPoint m px py = false) := by
  have e1 : pyint ((nb.x : ℚ) + nb.velocity_x - nb.velocity_x) = nb.x := pyint_add_sub _ _
  have e2 : pyint ((nb.y : ℚ) + nb.velocity_y - nb.velocity_y) = nb.y := pyint_add_sub _ _
  refine ⟨nanobotMove_preserves_free m nb, fun hx hy => ?_, fun hx hy => ?_,
    sentinelMove_preserves_free m sx sy vx vy, fun px py hout => ?_⟩
  · constructor <;> simp [Nanobot.moveStep, pyint_intCast, hx, hy]
  · constructor <;> simp [Nanobot.moveStep, pyint_intCast, hx, hy]
  · unfold wallAtPoint
    rcases hout with h | h | h | h <;>
      · simp only [Bool.and_eq_false_iff, decide_eq_false_iff_not, not_le, not_lt]
        omega

/-- Witness for C6: the wall-free demo nanobot is still wall-free after one
movement step on `demoMap`. -/
theorem C6_witness :
    nanobotCollision demoMap (demoMover.moveStep demoMap).x
      (demoMover.moveStep demoMap).y = false :=
  (C6_movement_collision demoMap demoMover 0 0 0 0).1 (by decide)

/-! ## C8: projectile homing, lifetime and target-loss tolerance -/

/-- C8: each frame, a bullet with a live target at distance `dist > 0`
survives and acquires velocity `BULLET_SPEED / dist` times the vector to the
target's centre — a positive multiple of the unit vector toward the target,
of magnitude exactly `BULLET_SPEED = 10` — and its rect moves by that
velocity; with a live target at distance 0 it self-destroys; with its target
gone its update reads nothing of the target (the result is identical for
every value of the target-position and distance oracles), it keeps moving
in a straight line at its last velocity, and it self-destroys exactly when
its rect no longer overlaps the screen rect. -/
theorem C8_bullet_update (b : Bullet) (tc : ℤ × ℤ) (dist : ℚ)
    (_hnn : 0 ≤ dist)
    (hd : dist * dist =
      ((tc.1 - b.centerx : ℤ) : ℚ) ^ 2 + ((tc.2 - b.centery : ℤ) : ℚ) ^ 2) :
    (0 < dist →
      (b.update true tc dist).2 = false ∧
      (b.update true tc dist).1.vx ^ 2 + (b.update true tc dist).1.vy ^ 2 =
        BULLET_SPEED ^ 2 ∧
      (b.update true tc dist).1.vx * dist = ((tc.1 - b.centerx : ℤ) : ℚ) * BULLET_SPEED ∧
      (b.update true tc dist).1.vy * dist = ((tc.2 - b.centery : ℤ) : ℚ) * BULLET_SPEED ∧
      (b.update true tc dist).1.x = pyint ((b.x : ℚ) + (b.update true tc dist).1.vx) ∧
      (b.update true tc dist).1.y = pyint ((b.y : ℚ) + (b.update true tc dist).1.vy)) ∧
    (dist = 0 → b.update true tc dist = (b, true)) ∧
    (∀ (tc1 tc2 : ℤ × ℤ) (d1 d2 : ℚ), b.update false tc1 d1 = b.update false tc2 d2) ∧
    ((b.update false tc dist).1.vx = b.vx ∧
     (b.update false tc dist).1.vy = b.vy ∧
     (b.update false tc dist).1.x = pyint ((b.x : ℚ) + b.vx) ∧
     (b.update false tc dist).1.y = pyint ((b.y : ℚ) + b.vy)) ∧
    ((b.update false tc dist).2 = !collideRect screenRect (b.update false tc dist).1.rect) := by
  refine ⟨fun hpos => ?_, fun hzero => ?_, fun tc1 tc2 d1 d2 => rfl, ⟨rfl, rfl, rfl, rfl⟩, rfl⟩
  · have hne : dist ≠ 0 := ne_of_gt hpos
    have hupd : b.update true tc dist =
        ({ b with
            vx := ((tc.1 - b.centerx : ℤ) : ℚ) / dist * BULLET_SPEED
            vy := ((tc.2 - b.centery : ℤ) : ℚ) / dist * BULLET_SPEED
            x := pyint ((b.x : ℚ) + ((tc.1 - b.centerx : ℤ) : ℚ) / dist * BULLET_SPEED)
            y := pyint ((b.y : ℚ) + ((tc.2 - b.centery : ℤ) : ℚ) / dist * BULLET_SPEED) },
          false) := by
      simp [Bullet.update, hpos]
    rw [hupd]
    refine ⟨rfl, ?_, ?_, ?_, rfl, rfl⟩
    · show (((tc.1 - b.centerx : ℤ) : ℚ) / dist * BULLET_SPEED) ^ 2 +
        (((tc.2 - b.centery : ℤ) : ℚ) / dist * BULLET_SPEED) ^ 2 = BULLET_SPEED ^ 2
      push_cast
      push_cast at hd
      field_simp
      linear_combination (BULLET_SPEED : ℚ) ^ 2 * hd.symm
    · show ((tc.1 - b.centerx : ℤ) : ℚ) / dist * BULLET_SPEED * dist =
        ((tc.1 - b.centerx : ℤ) : ℚ) * BULLET_SPEED
      field_simp
    · show ((tc.2 - b.centery : ℤ) : ℚ) / dist * BULLET_SPEED * dist =
        ((tc.2 - b.centery : ℤ) : ℚ) * BULLET_SPEED
      field_simp
  · simp [Bullet.update, hzero]

/-- Witness for C8: a bullet centred at the origin corner homing on a target
3 right and 4 up-screen, at distance 5, gets a velocity of magnitude 10. -/
theorem C8_witness :
    (demoBullet.update true (7, 8) 5).1.vx ^ 2 + (demoBullet.update true (7, 8) 5).1.vy ^ 2 =
      BULLET_SPEED ^ 2 :=
  ((C8_bullet_update demoBullet (7, 8) 5 (by norm_num)
    (by norm_num [Bullet.centerx, Bullet.centery, demoBullet, Bullet.make])).1
    (by norm_num)).2.1

/-! ## C10: projectiles never consult the grid -/

/-- C10 (amended): a bullet's frame update takes no grid at all, so walls
neither block nor destroy it: even when the updated bullet's centre lies in
a `Wall` cell of an arbitrary grid, the update moved it there all the same
and its survival that frame is governed by the lifetime rules — with a live
target it self-destroys exactly at distance 0, with a dead target exactly
when its rect leaves the screen, and in the main loop's collision pass it is
removed exactly when its rect overlaps some sentinel or some crate.  In
addition to those, the player-contact dokill pass
(`spritecollide(nanobot, all_sprites, True)`, which holds every fired
bullet) removes exactly the bullets whose rect overlaps the player's rect —
a fourth removal path, still independent of the grid. -/
theorem C10_bullets_ignore_walls (m : GameMap) (b : Bullet) (tc : ℤ × ℤ)
    (dist : ℚ) (sentinelRects crateRects : List Rect) :
    (wallAtPoint m (b.update false tc dist).1.centerx
        (b.update false tc dist).1.centery = true →
      (b.update false tc dist).1.x = pyint ((b.x : ℚ) + b.vx) ∧
      (b.update false tc dist).1.y = pyint ((b.y : ℚ) + b.vy) ∧
      (b.update false tc dist).2 =
        !collideRect screenRect (b.update false tc dist).1.rect) ∧
    (0 ≤ dist → ((b.update true tc dist).2 = true ↔ dist = 0)) ∧
    ((b.update false tc dist).2 = true ↔
      collideRect screenRect (b.update false tc dist).1.rect = false) ∧
    (bulletHitKill b.rect sentinelRects crateRects = true ↔
      (∃ r ∈ sentinelRects, collideRect b.rect r = true) ∨
      (∃ r ∈ crateRects, collideRect b.rect r = true)) ∧
    (∀ (group : List Rect) (nbRect : Rect),
      b.rect ∈ collectKilled nbRect group ↔
        b.rect ∈ group ∧ collideRect nbRect b.rect = true) := by
  refine ⟨fun _ => ⟨rfl, rfl, rfl⟩, fun hnn => ?_, ?_, ?_, ?_⟩
  · by_cases hpos : 0 < dist
    · simp [Bullet.update, hpos]
      linarith
    · have hzero : dist = 0 := le_antisymm (not_lt.mp hpos) hnn
      simp [Bullet.update, hzero]
  · simp [Bullet.update]
  · simp [bulletHitKill, List.any_eq_true]
  · intro group nbRect
    simp [collectKilled, List.mem_filter]

/-- Witness for C10: a concrete dead-target bullet sitting inside the wall
tile (1,0) of `demoMap` still advanced by its velocity and survives while
on screen. -/
theorem C10_witness :
    (demoWallBullet.update false (0, 0) 0).1.x = pyint ((demoWallBullet.x : ℚ) + demoWallBullet.vx) ∧
    (demoWallBullet.update false (0, 0) 0).1.y = pyint ((demoWallBullet.y : ℚ) + demoWallBullet.vy) ∧
    (demoWallBullet.update false (0, 0) 0).2 =
      !collideRect screenRect (demoWallBullet.update false (0, 0) 0).1.rect :=
  (C10_bullets_ignore_walls demoMap demoWallBullet (0, 0) 0 [] []).1 (by
    have h1 : (demoWallBullet.update false (0, 0) 0).1 =
        { x := 73, y := 12, vx := 3, vy := 2 } := by
      norm_num [Bullet.update, demoWallBullet, pyint]
    rw [h1]
    decide)

/-- C10 counterexample: the claim's exclusive removal list is false — the
code has a fourth removal path.  The demo nanobot fires at a sentinel 100
units to its right; after the bullet's first (and only) update it has not
self-destroyed (live target at distance 100 > 0), it overlaps neither the
sentinel nor any crate, and it sits well inside the screen — yet its rect
still overlaps the player it was fired from, so the dokill pass
`spritecollide(nanobot, all_sprites, True)` (line 873, and `all_sprites`
receives every bullet at lines 442/450) removes it on its firing frame. -/
theorem C10_counterexample :
    (demoFiredBullet.update true (175, 75) 100).2 = false ∧
    bulletHitKill (demoFiredBullet.update true (175, 75) 100).1.rect
      [demoSentinelRect] [] = false ∧
    collideRect screenRect (demoFiredBullet.update true (175, 75) 100).1.rect = true ∧
    (demoFiredBullet.update true (175, 75) 100).1.rect ∈
      collectKilled demoBot.rect [(demoFiredBullet.update true (175, 75) 100).1.rect] := by
  have h1 : demoFiredBullet.update true (175, 75) 100 =
      ({ x := 81, y := 71, vx := 10, vy := 0 }, false) := by
    norm_num [Bullet.update, demoFiredBullet, Bullet.make, Bullet.centerx,
      Bullet.centery, pyint, BULLET_SPEED]
  rw [h1]
  decide

/-! ## C1: health and ammo bounds -/

theorem moveStep_ammo (m : GameMap) (nb : Nanobot) :
    (nb.moveStep m).ammo_count = nb.ammo_count := rfl

theorem moveStep_cooldown (m : GameMap) (nb : Nanobot) :
    (nb.moveStep m).cooldown_timer = nb.cooldown_timer := rfl

theorem moveStep_swirl (m : GameMap) (nb : Nanobot) :
    (nb.moveStep m).is_swirling = nb.is_swirling := rfl

theorem timersStep_ammo (nb : Nanobot) : nb.timersStep.ammo_count = nb.ammo_count := by
  dsimp only [Nanobot.timersStep]
  split_ifs <;> rfl

theorem timersStep_swirl (nb : Nanobot) : nb.timersStep.is_swirling = nb.is_swirling := by
  dsimp only [Nanobot.timersStep]
  split_ifs <;> rfl

theorem timersStep_health (nb : Nanobot) :
    nb.timersStep.current_health = nb.current_health := by
  dsimp only [Nanobot.timersStep]
  split_ifs <;> rfl

theorem timersStep_cooldown (nb : Nanobot) :
    nb.timersStep.cooldown_timer = nb.cooldown_timer - 1 := by
  dsimp only [Nanobot.timersStep]
  split_ifs with h <;>
    first
      | rfl
      | (show nb.cooldown_timer = nb.cooldown_timer - 1
         omega)

theorem swirlStep_cooldown (nb : Nanobot) :
    nb.swirlStep.cooldown_timer = nb.cooldown_timer := by
  dsimp only [Nanobot.swirlStep]
  split_ifs <;> rfl

theorem swirlStep_health (nb : Nanobot) :
    nb.swirlStep.current_health = nb.current_health := by
  dsimp only [Nanobot.swirlStep]
  split_ifs <;> rfl

/-- The drain equation of `Nanobot.swirlStep` while swirling with ammo. -/
theorem swirlStep_ammo_drain (nb : Nanobot) (hs : nb.is_swirling = true)
    (ha : 0 < nb.ammo_count) :
    nb.swirlStep.ammo_count = max 0 (nb.ammo_count - 5/60) := by
  have hcost : SWIRL_AMMO_COST / FPS = 5/60 := by norm_num [SWIRL_AMMO_COST, FPS]
  simp only [Nanobot.swirlStep, hs, if_true, ha, hcost]
  split <;> rfl

/-- One swirl-held, no-fire frame drains exactly `5/60` ammo (as long as at
least that much is left) and keeps the cooldown at 0. -/
theorem playingFrame_held (m : GameMap) (nb : Nanobot)
    (hc : nb.cooldown_timer = 0) (ha : 5/60 ≤ nb.ammo_count) :
    (playingFrame m true nb).ammo_count = nb.ammo_count - 5/60 ∧
    (playingFrame m true nb).cooldown_timer = 0 := by
  have hpos : 0 < nb.ammo_count := lt_of_lt_of_le (by norm_num) ha
  have hsw : ((nb.setSwirl true).moveStep m).timersStep.is_swirling = true := by
    rw [timersStep_swirl, moveStep_swirl]
    simp [Nanobot.setSwirl, hpos]
  have ham : ((nb.setSwirl true).moveStep m).timersStep.ammo_count = nb.ammo_count := by
    rw [timersStep_ammo, moveStep_ammo]
    rfl
  have hpos2 : 0 < ((nb.setSwirl true).moveStep m).timersStep.ammo_count := by
    rw [ham]; exact hpos
  constructor
  · show ((nb.setSwirl true).moveStep m).timersStep.swirlStep.ammo_count = _
    rw [swirlStep_ammo_drain _ hsw hpos2, ham, max_eq_right (by linarith)]
  · show ((nb.setSwirl true).moveStep m).timersStep.swirlStep.cooldown_timer = 0
    rw [swirlStep_cooldown, timersStep_cooldown, moveStep_cooldown]
    show nb.cooldown_timer - 1 = 0
    omega

/-- Drain closed form over `k` swirl-held frames. -/
theorem playingFrame_iterate (m : GameMap) (k : ℕ) : ∀ nb : Nanobot,
    nb.cooldown_timer = 0 → (k : ℚ) * (5/60) ≤ nb.ammo_count →
    ((playingFrame m true)^[k] nb).ammo_count = nb.ammo_count - (k : ℚ) * (5/60) ∧
    ((playingFrame m true)^[k] nb).cooldown_timer = 0 := by
  induction k with
  | zero =>
    intro nb hc _
    simpa using hc
  | succ n ih =>
    intro nb hc ha
    have hn : (0 : ℚ) ≤ (n : ℚ) := Nat.cast_nonneg n
    have hcast : ((n + 1 : ℕ) : ℚ) = (n : ℚ) + 1 := by push_cast; ring
    have ha1 : 5/60 ≤ nb.ammo_count := by
      rw [hcast] at ha
      nlinarith
    obtain ⟨hfa, hfc⟩ := playingFrame_held m nb hc ha1
    rw [Function.iterate_succ_apply]
    have ha2 : (n : ℚ) * (5/60) ≤ (playingFrame m true nb).ammo_count := by
      rw [hcast] at ha
      rw [hfa]
      linarith
    obtain ⟨h1, h2⟩ := ih (playingFrame m true nb) hfc ha2
    rw [h1, hfa, hcast]
    exact ⟨by ring, h2⟩

/-- The exact ammo effect of a successful `fire_weapon` from fractional ammo
below one unit: no multishot surcharge can trigger, and the single 1-ammo
cost is applied unclamped. -/
theorem fire_weapon_fractional (nb : Nanobot) (hc : nb.cooldown_timer = 0)
    (hs : nb.is_swirling = false) (ha : 0 < nb.ammo_count) (ha1 : nb.ammo_count < 1) :
    (nb.fire_weapon true true).1.ammo_count = nb.ammo_count - 1 := by
  dsimp only [Nanobot.fire_weapon]
  split_ifs with h1 h2
  · exfalso
    obtain ⟨-, hlt⟩ := h2
    linarith
  · rfl
  · exact absurd ⟨hc, rfl, ha, rfl, hs⟩ h1

/-- Bounds of the swirl drain under in-range ammo. -/
theorem swirlStep_ammo_bounds (nb : Nanobot) (h0 : 0 ≤ nb.ammo_count)
    (h1 : nb.ammo_count ≤ 999) :
    0 ≤ nb.swirlStep.ammo_count ∧ nb.swirlStep.ammo_count ≤ 999 := by
  have hcost : SWIRL_AMMO_COST / FPS = 5/60 := by norm_num [SWIRL_AMMO_COST, FPS]
  dsimp only [Nanobot.swirlStep]
  rw [hcost]
  split_ifs <;>
    first
      | exact ⟨h0, h1⟩
      | exact ⟨le_max_left _ _, max_le (by norm_num) (by linarith)⟩

theorem setSwirl_cooldown (held : Bool) (nb : Nanobot) :
    (nb.setSwirl held).cooldown_timer = nb.cooldown_timer := rfl

theorem setSwirl_ammo (held : Bool) (nb : Nanobot) :
    (nb.setSwirl held).ammo_count = nb.ammo_count := rfl

theorem setSwirl_false (nb : Nanobot) : (nb.setSwirl false).is_swirling = false := by
  simp [Nanobot.setSwirl]

/-- C1 counterexample: the claim fails on the code.  Holding the swirl key
for 1195 frames from a fresh nanobot (ammo 100) leaves exactly `5/12` ammo —
a reachable state — and then one successful shot drives the ammo count to
`-7/12 < 0` (firing subtracts 1 without clamping whenever ammo is merely
positive).  Likewise enemy-contact damage subtracts 10 from health without
clamping: at health 5 (within `[0, max]`) it produces `-5`. -/
theorem C1_counterexample :
    ((playingFrame [] true)^[1195] demoBot).ammo_count = 5/12 ∧
    ((((playingFrame [] true)^[1195] demoBot).setSwirl false).fire_weapon
        true true).1.ammo_count = -7/12 ∧
    0 ≤ demoHurtBot.current_health ∧
    demoHurtBot.current_health ≤ demoHurtBot.max_health ∧
    (resolveContact demoHurtBot GState.PLAYING).1.current_health = -5 := by
  obtain ⟨hammo, hcd⟩ := playingFrame_iterate [] 1195 demoBot rfl
    (by norm_num [demoBot, Nanobot.init])
  have hval : ((playingFrame [] true)^[1195] demoBot).ammo_count = 5/12 := by
    rw [hammo]
    norm_num [demoBot, Nanobot.init]
  refine ⟨hval, ?_, ?_, ?_, ?_⟩
  · have h1 : (((playingFrame [] true)^[1195] demoBot).setSwirl false).cooldown_timer = 0 :=
      (setSwirl_cooldown _ _).trans hcd
    have h2 : (((playingFrame [] true)^[1195] demoBot).setSwirl false).is_swirling = false :=
      setSwirl_false _
    have h3 : (((playingFrame [] true)^[1195] demoBot).setSwirl false).ammo_count = 5/12 :=
      (setSwirl_ammo _ _).trans hval
    rw [fire_weapon_fractional _ h1 h2 (by rw [h3]; norm_num) (by rw [h3]; norm_num), h3]
    norm_num
  · norm_num [demoHurtBot, demoBot, Nanobot.init]
  · norm_num [demoHurtBot, demoBot, Nanobot.init]
  · norm_num [resolveContact, demoHurtBot, demoBot, Nanobot.init]

/-- C1 (amended): every health/ammo mutation except enemy-contact damage and
firing is clamped into range — pickups keep health in `[0, max]` and ammo in
`[0, 999]`, the swirl drain keeps ammo in `[0, 999]` and never touches
health, the level-start bonus keeps both in range, and firing keeps ammo
nonnegative whenever ammo is a whole number (as it is until the swirl drain
first makes it fractional).  Enemy-contact damage, however, subtracts
exactly 10 with no clamp, and firing at fractional ammo in `(0, 1)`
subtracts 1 with no clamp, so health and ammo can each go negative. -/
theorem C1_amended (nb : Nanobot) (p : PowerupType) (t : ℕ × ℕ)
    (hasTarget can_fire : Bool)
    (hh0 : 0 ≤ nb.current_health) (hh1 : nb.current_health ≤ nb.max_health)
    (ha0 : 0 ≤ nb.ammo_count) (ha1 : nb.ammo_count ≤ 999) :
    (0 ≤ (nb.apply_powerup p).current_health ∧
     (nb.apply_powerup p).current_health ≤ nb.max_health ∧
     0 ≤ (nb.apply_powerup p).ammo_count ∧ (nb.apply_powerup p).ammo_count ≤ 999) ∧
    (0 ≤ nb.swirlStep.ammo_count ∧ nb.swirlStep.ammo_count ≤ 999 ∧
     nb.swirlStep.current_health = nb.current_health) ∧
    (0 ≤ (setupLevelNext nb t).current_health ∧
     (setupLevelNext nb t).current_health ≤ nb.max_health ∧
     0 ≤ (setupLevelNext nb t).ammo_count ∧ (setupLevelNext nb t).ammo_count ≤ 999) ∧
    (∀ n : ℕ, nb.ammo_count = (n : ℚ) →
      0 ≤ (nb.fire_weapon hasTarget can_fire).1.ammo_count) ∧
    (nb.is_swirling = false → nb.shield_active = false →
      (resolveContact nb GState.PLAYING).1.current_health = nb.current_health - 10) := by
  have hmh : 0 ≤ nb.max_health := le_trans hh0 hh1
  refine ⟨?_, ?_, ?_, ?_, fun hs hsh => by simp [resolveContact, hs, hsh]⟩
  · cases p with
    | shield => exact ⟨hh0, hh1, ha0, ha1⟩
    | multishot => exact ⟨hh0, hh1, ha0, ha1⟩
    | ammo =>
      exact ⟨hh0, hh1, le_min (by norm_num) (by linarith), min_le_left _ _⟩
    | health =>
      exact ⟨le_min hmh (by linarith), min_le_left _ _, ha0, ha1⟩
  · obtain ⟨hb0, hb1⟩ := swirlStep_ammo_bounds nb ha0 ha1
    exact ⟨hb0, hb1, swirlStep_health nb⟩
  · exact ⟨le_min hmh (by linarith), min_le_left _ _,
      le_min (by norm_num) (by linarith), min_le_left _ _⟩
  · intro n hn
    dsimp only [Nanobot.fire_weapon]
    split_ifs with h1 h2
    · obtain ⟨-, hlt⟩ := h2
      show (0:ℚ) ≤ nb.ammo_count - 1 - 1
      rw [hn] at hlt ⊢
      have hq : (1:ℚ) < (n:ℚ) := by linarith
      have hnat : 1 < n := by exact_mod_cast hq
      have h2n : (2:ℚ) ≤ (n:ℚ) := by exact_mod_cast hnat
      linarith
    · show (0:ℚ) ≤ nb.ammo_count - 1
      have hpos := h1.2.2.1
      rw [hn] at hpos ⊢
      have hnat : 0 < n := by exact_mod_cast hpos
      have h1n : (1:ℚ) ≤ (n:ℚ) := by exact_mod_cast hnat
      linarith
    · rw [hn]
      exact Nat.cast_nonneg n

/-- Witness for C1 (amended) at a concrete fully-stocked nanobot collecting
an ammo pickup. -/
theorem C1_witness :
    0 ≤ (demoBot.apply_powerup PowerupType.ammo).ammo_count ∧
    (demoBot.apply_powerup PowerupType.ammo).ammo_count ≤ 999 :=
  ⟨((C1_amended demoBot PowerupType.ammo (0, 0) true true
      (by norm_num [demoBot, Nanobot.init]) (by norm_num [demoBot, Nanobot.init])
      (by norm_num [demoBot, Nanobot.init]) (by norm_num [demoBot, Nanobot.init])).1).2.2.1,
   ((C1_amended demoBot PowerupType.ammo (0, 0) true true
      (by norm_num [demoBot, Nanobot.init]) (by norm_num [demoBot, Nanobot.init])
      (by norm_num [demoBot, Nanobot.init]) (by norm_num [demoBot, Nanobot.init])).1).2.2.2⟩

/-! ## C2: crate destruction -/

/-- C2 (code-bug evidence): a freshly spawned crate centred at `(75, 75)`
still has its full `CRATE_HEALTH = 3` — it has never been hit — yet because
crates are members of `all_sprites`, the main loop's "PowerUp collection"
pass (`pygame.sprite.spritecollide(nanobot, all_sprites, True)`) kills it
the moment the demo nanobot's rect overlaps it, with no `Crate.hit` call and
no loot roll.  This contradicts the specified rule that a crate is destroyed
only when projectile hits bring its health to zero. -/
theorem C2_crate_destroyed_by_contact :
    (Crate.make 75 75).health = CRATE_HEALTH ∧
    0 < (Crate.make 75 75).health ∧
    collideRect demoBot.rect (Crate.make 75 75).rect = true ∧
    (Crate.make 75 75).rect ∈ collectKilled demoBot.rect [(Crate.make 75 75).rect] := by
  decide
